import Mathlib

/-!
Shallow embedding of the data pipeline of `spotify_streamlit.py`:
the loader `load_streaming_files`, the projection `clean_streaming_data`,
and the summary aggregations of the dashboard (total minutes / streams,
unique songs / artists, top-by-plays tables, day-of-week stats).

Dates are modelled as epoch days, timestamps as epoch milliseconds, and
pandas float columns as exact rationals.  Pandas behaviours relevant to the
pipeline are modelled explicitly where they matter:
  - a DataFrame created from zero files (or from an empty JSON array) has no
    columns, so a column access raises `KeyError`;
  - `pd.read_json` on malformed JSON raises a `ValueError` whose message,
    "Expected object or value", does not contain the file path;
  - `groupby(sort=True)` orders groups by ascending key and drops rows whose
    grouping key is null;
  - `sort_values(ascending=False)` computes an ascending argsort and then
    reverses it, so on inputs where the underlying sort is stable (numpy's
    quicksort degenerates to a stable insertion sort on small arrays) the
    relative order of ties is the reverse of the ascending-key group order;
  - `.reindex(labels)` fills absent labels with NaN (modelled as `none`).
-/

namespace Spotify

/-- Calendar day names in dashboard order (`day_order`, line 209 of the source). -/
def day_order : List String :=
  ["Monday", "Tuesday", "Wednesday", "Thursday", "Friday", "Saturday", "Sunday"]

/-- Milliseconds in one day: timestamps are epoch milliseconds, stream dates epoch days. -/
def msPerDay : Nat := 86400000

/-- One raw record of a streaming-history export file.  The documented schema fields
are explicit; `extra` carries any raw fields outside the documented schema. -/
structure RawRecord where
  platform : String
  ms_played : Nat
  master_metadata_track_name : Option String
  master_metadata_album_artist_name : Option String
  master_metadata_album_album_name : Option String
  spotify_track_uri : Option String
  reason_start : String
  reason_end : String
  skipped : Bool
  ts : Nat
  extra : List (String × String)
deriving DecidableEq

/-- A loaded record: the raw fields plus the derived `stream_date` column (line 36). -/
structure Row extends RawRecord where
  stream_date : Nat
deriving DecidableEq

/-- Line 36: `stream_date` is the calendar date of the timestamp. -/
def addStreamDate (r : RawRecord) : Row :=
  { r with stream_date := r.ts / msPerDay }

/-- Content of one source file: a well-formed JSON array of records, or malformed JSON. -/
inductive FileContent where
  | json (rows : List RawRecord)
  | malformed
deriving DecidableEq

/-- Errors raised by the pandas operations the loader uses. -/
inductive PdError where
  | keyError (column : String)
  | valueError (msg : String)
deriving DecidableEq

/-- Line 35, `pd.read_json`: malformed JSON raises `ValueError` with the parser message
"Expected object or value"; the message does not contain the file path. -/
def read_json (c : FileContent) : Except PdError (List RawRecord) :=
  match c with
  | .json rows => .ok rows
  | .malformed => .error (.valueError "Expected object or value")

/-- The loader loop (lines 34-38): read each file in order, derive `stream_date`,
and concatenate.  A file whose JSON array is empty yields a frame with no columns,
so the access `df_temp["ts"]` raises `KeyError`.  Any error aborts the whole loop. -/
def readAll (files : String → FileContent) : List String → Except PdError (List Row)
  | [] => .ok []
  | p :: ps =>
    match read_json (files p) with
    | .error e => .error e
    | .ok rows =>
      if rows.isEmpty then .error (.keyError "ts")
      else
        match readAll files ps with
        | .error e => .error e
        | .ok rest => .ok (rows.map addStreamDate ++ rest)

/-- Lexicographic strict order on character lists, by code point (Python string order). -/
def charListLt : List Char → List Char → Bool
  | [], [] => false
  | [], _ :: _ => true
  | _ :: _, [] => false
  | a :: as, b :: bs =>
    if a.toNat < b.toNat then true
    else if b.toNat < a.toNat then false
    else charListLt as bs

/-- Strict lexicographic order on strings, by code point. -/
def strLt (a b : String) : Bool :=
  charListLt a.data b.data

/-- Lexicographic order on strings, by code point. -/
def strLe (a b : String) : Bool :=
  !(strLt b a)

/-- Insert a string into an ascending-sorted list, after any equal elements (stable). -/
def insertAscStr (x : String) : List String → List String
  | [] => [x]
  | y :: ys => if strLe y x then y :: insertAscStr x ys else x :: y :: ys

/-- Python `sorted` on strings: stable ascending lexicographic sort (line 34). -/
def sortStrings (l : List String) : List String :=
  l.foldl (fun acc x => insertAscStr x acc) []

/-- The date-range filter (lines 40-43): an inclusive lower and an inclusive upper
bound, each applied only when the corresponding date is given. -/
def dateFilter (min_date max_date : Option Nat) (rows : List Row) : List Row :=
  let r1 := match min_date with
    | some m => rows.filter (fun r => decide (m ≤ r.stream_date))
    | none => rows
  match max_date with
  | some m => r1.filter (fun r => decide (r.stream_date ≤ m))
  | none => r1

/-- When no file contributed rows, the concatenated frame has no columns, so the first
column access after the loop raises `KeyError`: on `stream_date` when a date bound is
given (lines 41 and 43), otherwise on the track-name column (line 45). -/
def emptyFrameKeyError (min_date max_date : Option Nat) : PdError :=
  if min_date.isSome || max_date.isSome then .keyError "stream_date"
  else .keyError "master_metadata_track_name"

/-- `load_streaming_files` (lines 31-46): concatenate the sorted files, apply the
inclusive date-range filter, then drop records whose track name is null. -/
def load_streaming_files (files : String → FileContent) (paths : List String)
    (min_date max_date : Option Nat) : Except PdError (List Row) :=
  match readAll files (sortStrings paths) with
  | .error e => .error e
  | .ok rows =>
    if (sortStrings paths).isEmpty then .error (emptyFrameKeyError min_date max_date)
    else .ok ((dateFilter min_date max_date rows).filter
        (fun r => r.master_metadata_track_name.isSome))

/-- A cleaned record (`clean_streaming_data` output, lines 49-57): exactly the
documented schema columns plus the derived `seconds` and `minutes`. -/
structure CleanRow where
  platform : String
  ms_played : Nat
  master_metadata_track_name : Option String
  master_metadata_album_artist_name : Option String
  master_metadata_album_album_name : Option String
  spotify_track_uri : Option String
  reason_start : String
  reason_end : String
  skipped : Bool
  stream_date : Nat
  ts : Nat
  seconds : ℚ
  minutes : ℚ
deriving DecidableEq

/-- Row-wise action of `clean_streaming_data`: keep the schema columns unchanged and
derive `seconds = ms_played / 1000` and `minutes = seconds / 60` (lines 51-56). -/
def cleanRow (r : Row) : CleanRow :=
  let s : ℚ := (r.ms_played : ℚ) / 1000
  { platform := r.platform
    ms_played := r.ms_played
    master_metadata_track_name := r.master_metadata_track_name
    master_metadata_album_artist_name := r.master_metadata_album_artist_name
    master_metadata_album_album_name := r.master_metadata_album_album_name
    spotify_track_uri := r.spotify_track_uri
    reason_start := r.reason_start
    reason_end := r.reason_end
    skipped := r.skipped
    stream_date := r.stream_date
    ts := r.ts
    seconds := s
    minutes := s / 60 }

/-- `clean_streaming_data` (lines 49-57): column selection plus the two derived
columns, applied to every row; no row is added or dropped. -/
def clean_streaming_data (l : List Row) : List CleanRow :=
  l.map cleanRow

/-- Line 74: `total_minutes` is the sum of the `minutes` column. -/
def total_minutes (l : List CleanRow) : ℚ :=
  (l.map (fun r => r.minutes)).sum

/-- Line 75: `total_songs` counts the non-null entries of `spotify_track_uri`. -/
def total_songs (l : List CleanRow) : Nat :=
  (l.filter (fun r => r.spotify_track_uri.isSome)).length

/-- The (track name, artist name) keys of the rows in which both are non-null;
pandas `groupby` drops rows whose grouping key is null. -/
def songKeys (l : List CleanRow) : List (String × String) :=
  l.filterMap (fun r =>
    match r.master_metadata_track_name, r.master_metadata_album_artist_name with
    | some t, some a => some (t, a)
    | _, _ => none)

/-- Line 76: `unique_songs` is the number of groups of the groupby on the
(track name, artist name) pair. -/
def unique_songs (l : List CleanRow) : Nat :=
  (songKeys l).dedup.length

/-- Line 77: `unique_artists` is `nunique` of the artist column (nulls excluded). -/
def unique_artists (l : List CleanRow) : Nat :=
  (l.filterMap (fun r => r.master_metadata_album_artist_name)).dedup.length

/-- Insert into an ascending-by-metric sorted list, after any equal elements (stable). -/
def insertAscBy {α : Type} (f : α → Nat) (x : α) : List α → List α
  | [] => [x]
  | y :: ys => if f y ≤ f x then y :: insertAscBy f x ys else x :: y :: ys

/-- Stable ascending sort by a natural-number metric. -/
def sortAscBy {α : Type} (f : α → Nat) (l : List α) : List α :=
  l.foldl (fun acc x => insertAscBy f x acc) []

/-- pandas `sort_values(ascending=False)`: an ascending argsort reversed
(`indexer[::-1]` in `nargsort`), so ties come out in reversed input order. -/
def sort_values_desc {α : Type} (f : α → Nat) (l : List α) : List α :=
  (sortAscBy f l).reverse

/-- The ascending group keys of the groupby on the artist column
(`groupby` sorts keys and drops null keys). -/
def artistKeys (l : List CleanRow) : List String :=
  sortStrings (l.filterMap (fun r => r.master_metadata_album_artist_name)).dedup

/-- Lines 129-130, before sorting: one row per artist, in ascending key order,
with the count of non-null track names in the group. -/
def artistPlaysTable (l : List CleanRow) : List (String × Nat) :=
  (artistKeys l).map (fun k =>
    (k, (l.filter (fun r => r.master_metadata_album_artist_name == some k
          && r.master_metadata_track_name.isSome)).length))

/-- `top_artists_plays` (lines 129-130): descending sort by plays, head 15. -/
def top_artists_plays (l : List CleanRow) : List (String × Nat) :=
  (sort_values_desc (fun p => p.2) (artistPlaysTable l)).take 15

/-- Lexicographic order used by `groupby` on the (track, artist) pair of keys. -/
def pairLeStr (p q : String × String) : Bool :=
  strLt p.1 q.1 || (p.1 == q.1 && strLe p.2 q.2)

/-- Insert into an ascending-sorted list of string pairs, after equal elements. -/
def insertAscPair (x : String × String) : List (String × String) → List (String × String)
  | [] => [x]
  | y :: ys => if pairLeStr y x then y :: insertAscPair x ys else x :: y :: ys

/-- Ascending lexicographic sort of string pairs. -/
def sortPairs (l : List (String × String)) : List (String × String) :=
  l.foldl (fun acc x => insertAscPair x acc) []

/-- Lines 158-160, before sorting: one row per (track, artist) pair, in ascending
key order, with the size of the group. -/
def songPlaysTable (l : List CleanRow) : List ((String × String) × Nat) :=
  (sortPairs (songKeys l).dedup).map (fun k =>
    (k, (l.filter (fun r => r.master_metadata_track_name == some k.1
          && r.master_metadata_album_artist_name == some k.2)).length))

/-- `top_songs_plays` (lines 158-160): descending sort by plays, head 15. -/
def top_songs_plays (l : List CleanRow) : List ((String × String) × Nat) :=
  (sort_values_desc (fun p => p.2) (songPlaysTable l)).take 15

/-- Day name of an epoch-day number; day 0 (1970-01-01) was a Thursday. -/
def dayName (d : Nat) : String :=
  day_order.getD ((d + 3) % 7) "Monday"

/-- Minutes total of one day-of-week bucket: the group sum when the day occurs in
the data, `none` (reindex fills NaN) when it does not. -/
def dowGroupSum (l : List CleanRow) (d : String) : Option ℚ :=
  let g := l.filter (fun r => dayName r.stream_date == d)
  if g.isEmpty then none else some ((g.map (fun r => r.minutes)).sum)

/-- `dow_stats` (lines 208-210): groupby on the day name, sum of minutes, reindexed
to `day_order`; labels absent from the data get NaN, modelled as `none`. -/
def dow_stats (l : List CleanRow) : List (String × Option ℚ) :=
  day_order.map (fun d => (d, dowGroupSum l d))

/-- A concrete raw record used to exercise the pipeline on explicit inputs. -/
def rawW : RawRecord :=
  { platform := "ios", ms_played := 60000, master_metadata_track_name := some "Song",
    master_metadata_album_artist_name := some "Artist",
    master_metadata_album_album_name := some "Album",
    spotify_track_uri := some "spotify:track:1", reason_start := "clickrow",
    reason_end := "trackdone", skipped := false, ts := 0, extra := [] }

/-- A file store in which every path holds one well-formed record. -/
def filesW : String → FileContent := fun _ => FileContent.json [rawW]

/-- A file store in which every path holds malformed JSON. -/
def filesBad : String → FileContent := fun _ => FileContent.malformed

/-- A concrete cleaned record on a Monday (epoch day 4 is 1970-01-05, a Monday),
with one minute of playback, parameterised by track and artist name. -/
def cRow (t a : String) : CleanRow :=
  { platform := "ios", ms_played := 60000, master_metadata_track_name := some t,
    master_metadata_album_artist_name := some a,
    master_metadata_album_album_name := some "Album",
    spotify_track_uri := some "spotify:track:1", reason_start := "clickrow",
    reason_end := "trackdone", skipped := false, stream_date := 4, ts := 345600000,
    seconds := 60, minutes := 1 }

/-- Two events with distinct artists, "a" encountered before "b". -/
def exC3 : List CleanRow := [cRow "t1" "a", cRow "t2" "b"]

/-- One event, on a Monday. -/
def exC4 : List CleanRow := [cRow "t" "x"]

/-- One event with a null track URI but non-null track and artist names. -/
def exC6 : List CleanRow := [{ cRow "t" "a" with spotify_track_uri := none }]

/-- One event with its track URI present. -/
def exC6ok : List CleanRow := [cRow "t" "a"]

/-- C1 counterexample: loading with an empty paths list raises a KeyError (the empty
concatenated frame has no columns, so line 45's column access fails), contradicting
the claim that it yields an empty record set without raising any error. -/
theorem load_empty_paths_raises :
    load_streaming_files (fun _ => FileContent.json []) [] none none
      = Except.error (PdError.keyError "master_metadata_track_name") := rfl

/-- C1 (amended): loading with an empty paths list raises a KeyError instead of
returning an empty record set; the summary metrics over an empty record set do
return zero, and the top-N sequences are empty. -/
theorem empty_paths_error_and_zero_metrics :
    (∀ (files : String → FileContent) (min_date max_date : Option Nat),
      ∃ e, load_streaming_files files [] min_date max_date = Except.error e) ∧
    total_minutes [] = 0 ∧ total_songs [] = 0 ∧ unique_songs [] = 0 ∧
    unique_artists [] = 0 ∧ top_artists_plays [] = [] ∧ top_songs_plays [] = [] := by
  refine ⟨?_, rfl, rfl, rfl, rfl, rfl, rfl⟩
  intro files min_date max_date
  exact ⟨emptyFrameKeyError min_date max_date, rfl⟩

/-- C2: date-range filtering is inclusive at both bounds; a record is retained by
the date filter exactly when it satisfies every given bound, and an absent bound
excludes nothing on that side. -/
theorem date_range_filter_inclusive (rows : List Row) (min_date max_date : Option Nat)
    (r : Row) :
    r ∈ dateFilter min_date max_date rows ↔
      r ∈ rows ∧ (∀ m ∈ min_date, m ≤ r.stream_date) ∧
        (∀ m ∈ max_date, r.stream_date ≤ m) := by
  unfold dateFilter
  cases min_date <;> cases max_date <;>
    (simp [List.mem_filter, and_assoc]; try tauto)

/-- C2 witness: a record equal to the lower bound and below the upper bound is
retained by the date filter. -/
theorem date_range_filter_inclusive_witness :
    addStreamDate rawW ∈ dateFilter (some 0) (some 5) [addStreamDate rawW] :=
  (date_range_filter_inclusive [addStreamDate rawW] (some 0) (some 5)
      (addStreamDate rawW)).mpr
    ⟨List.mem_singleton.mpr rfl, by simp [addStreamDate, rawW], by decide⟩

/-- C5: the total-minutes summary of the cleaned data equals the sum over all
events of ms_played / 60000, exactly. -/
theorem total_minutes_exact (l : List Row) :
    total_minutes (clean_streaming_data l)
      = (l.map (fun r => (r.ms_played : ℚ) / 60000)).sum := by
  have hmin : ∀ r : Row, (cleanRow r).minutes = (r.ms_played : ℚ) / 60000 := by
    intro r
    show (r.ms_played : ℚ) / 1000 / 60 = (r.ms_played : ℚ) / 60000
    rw [div_div]
    norm_num
  unfold total_minutes clean_streaming_data
  rw [List.map_map]
  induction l with
  | nil => rfl
  | cons r t ih => simp [ih, hmin r]

/-- C7: every record in a successful load output has a non-null track name,
whatever the date-range parameters. -/
theorem load_output_track_nonnull (files : String → FileContent) (paths : List String)
    (min_date max_date : Option Nat) (l : List Row)
    (h : load_streaming_files files paths min_date max_date = Except.ok l) :
    ∀ r ∈ l, r.master_metadata_track_name.isSome = true := by
  unfold load_streaming_files at h
  split at h
  · cases h
  · split at h
    · cases h
    · injection h with h
      subst h
      intro r hr
      exact (List.mem_filter.mp hr).2

/-- C7 witness: a concrete successful load whose single output record has a
non-null track name. -/
theorem load_output_track_nonnull_witness :
    load_streaming_files filesW ["f"] none none = Except.ok [addStreamDate rawW] ∧
    (addStreamDate rawW).master_metadata_track_name.isSome = true :=
  ⟨rfl, load_output_track_nonnull filesW ["f"] none none [addStreamDate rawW] rfl
    (addStreamDate rawW) (List.mem_singleton.mpr rfl)⟩

/-- Erase the raw fields outside the documented schema from a loaded record. -/
def stripExtra (r : Row) : Row :=
  { r with extra := [] }

/-- C9: the projection keeps exactly the documented schema fields; raw fields
outside the schema never influence the projected structure, so projecting data
with its extra fields erased gives the same result. -/
theorem clean_ignores_extra_fields (l : List Row) :
    clean_streaming_data (l.map stripExtra) = clean_streaming_data l := by
  induction l with
  | nil => rfl
  | cons r t ih =>
    show cleanRow (stripExtra r) :: clean_streaming_data (t.map stripExtra)
        = cleanRow r :: clean_streaming_data t
    rw [ih]
    rfl

/-- C10: cleaning preserves the number and identity of records: row i of the output
is exactly the projection of row i of the input, every retained field is unchanged,
and the two derived columns are seconds = ms_played / 1000 and minutes = seconds / 60. -/
theorem clean_preserves_rows (l : List Row) (i : Nat) (r : Row) (h : l[i]? = some r) :
    (clean_streaming_data l).length = l.length ∧
    (clean_streaming_data l)[i]? = some (cleanRow r) ∧
    (cleanRow r).platform = r.platform ∧
    (cleanRow r).ms_played = r.ms_played ∧
    (cleanRow r).master_metadata_track_name = r.master_metadata_track_name ∧
    (cleanRow r).master_metadata_album_artist_name
      = r.master_metadata_album_artist_name ∧
    (cleanRow r).master_metadata_album_album_name
      = r.master_metadata_album_album_name ∧
    (cleanRow r).spotify_track_uri = r.spotify_track_uri ∧
    (cleanRow r).reason_start = r.reason_start ∧
    (cleanRow r).reason_end = r.reason_end ∧
    (cleanRow r).skipped = r.skipped ∧
    (cleanRow r).stream_date = r.stream_date ∧
    (cleanRow r).ts = r.ts ∧
    (cleanRow r).seconds = (r.ms_played : ℚ) / 1000 ∧
    (cleanRow r).minutes = (cleanRow r).seconds / 60 := by
  refine ⟨by simp [clean_streaming_data], ?_,
    rfl, rfl, rfl, rfl, rfl, rfl, rfl, rfl, rfl, rfl, rfl, rfl, rfl⟩
  simp [clean_streaming_data, List.getElem?_map, h]

/-- C10 witness: the first row of a concrete one-row input is cleaned in place. -/
theorem clean_preserves_rows_witness :
    ([addStreamDate rawW] : List Row)[0]? = some (addStreamDate rawW) ∧
    (clean_streaming_data [addStreamDate rawW])[0]?
      = some (cleanRow (addStreamDate rawW)) :=
  ⟨rfl, (clean_preserves_rows [addStreamDate rawW] 0 (addStreamDate rawW) rfl).2.1⟩

/-- Membership through stable insertion into a metric-sorted list. -/
theorem mem_insertAscBy {α : Type} (f : α → Nat) (x a : α) (l : List α) :
    a ∈ insertAscBy f x l ↔ a = x ∨ a ∈ l := by
  induction l with
  | nil => simp [insertAscBy]
  | cons y ys ih =>
    simp only [insertAscBy]
    split
    · simp [ih]
      try tauto
    · simp
      try tauto

/-- Stable insertion preserves ascending order by the metric. -/
theorem pairwise_insertAscBy {α : Type} (f : α → Nat) (x : α) (l : List α)
    (h : List.Pairwise (fun a b => f a ≤ f b) l) :
    List.Pairwise (fun a b => f a ≤ f b) (insertAscBy f x l) := by
  induction l with
  | nil => simp [insertAscBy]
  | cons y ys ih =>
    rcases List.pairwise_cons.mp h with ⟨hy, hys⟩
    simp only [insertAscBy]
    by_cases hle : f y ≤ f x
    · rw [if_pos hle]
      refine List.pairwise_cons.mpr ⟨?_, ih hys⟩
      intro a ha
      rcases (mem_insertAscBy f x a ys).mp ha with rfl | hmem
      · exact hle
      · exact hy a hmem
    · rw [if_neg hle]
      refine List.pairwise_cons.mpr ⟨?_, h⟩
      intro a ha
      rcases List.mem_cons.mp ha with rfl | hmem
      · exact Nat.le_of_lt (Nat.lt_of_not_le hle)
      · exact le_trans (Nat.le_of_lt (Nat.lt_of_not_le hle)) (hy a hmem)

/-- The stable ascending sort is ascending by the metric, for any start accumulator. -/
theorem pairwise_sortAscBy_aux {α : Type} (f : α → Nat) (l : List α) :
    ∀ acc : List α, List.Pairwise (fun a b => f a ≤ f b) acc →
      List.Pairwise (fun a b => f a ≤ f b)
        (l.foldl (fun acc x => insertAscBy f x acc) acc) := by
  induction l with
  | nil => intro acc h; simpa using h
  | cons x xs ih => intro acc h; exact ih _ (pairwise_insertAscBy f x acc h)

/-- The descending sort used by sort_values is descending by the metric. -/
theorem pairwise_sort_values_desc {α : Type} (f : α → Nat) (l : List α) :
    List.Pairwise (fun a b => f b ≤ f a) (sort_values_desc f l) := by
  unfold sort_values_desc sortAscBy
  rw [List.pairwise_reverse]
  exact pairwise_sortAscBy_aux f l [] (by simp)

/-- C3 counterexample: artists "a" and "b" are first encountered in that order with
equal play counts, yet both top tables list "b" before "a": groupby orders groups by
ascending key and the descending value sort reverses ties, so tie order is not the
first-encountered input order. -/
theorem top_ties_not_input_order :
    (exC3.map (fun r => r.master_metadata_album_artist_name))
        = [some "a", some "b"] ∧
    top_artists_plays exC3 = [("b", 1), ("a", 1)] ∧
    top_songs_plays exC3 = [(("t2", "b"), 1), (("t1", "a"), 1)] :=
  ⟨rfl, by decide, by decide⟩

/-- C3 (amended): the top tables are sorted descending by the metric value and are
deterministic, but tied groups appear in the reverse of the ascending group-key
order rather than in first-encountered input order. -/
theorem top_plays_sorted_desc (l : List CleanRow) :
    List.Pairwise (fun p q : String × Nat => q.2 ≤ p.2) (top_artists_plays l) ∧
    List.Pairwise (fun p q : (String × String) × Nat => q.2 ≤ p.2)
      (top_songs_plays l) := by
  constructor
  · exact (pairwise_sort_values_desc (fun p => p.2) (artistPlaysTable l)).sublist
      (List.take_sublist 15 _)
  · exact (pairwise_sort_values_desc (fun p => p.2) (songPlaysTable l)).sublist
      (List.take_sublist 15 _)

/-- C4 counterexample: with a single Monday event, a weekday with no events carries
a missing value (reindex fills NaN), not a zero metric; the second row is
("Tuesday", none) and ("Tuesday", some 0) is nowhere in the output. -/
theorem dow_stats_missing_day_nan :
    (dow_stats exC4)[1]? = some ("Tuesday", none) ∧
    ¬ (("Tuesday", some (0 : ℚ)) ∈ dow_stats exC4) := by
  constructor
  · decide
  · decide

/-- C4 (amended): day-of-week grouping always returns exactly 7 rows in calendar
order Monday through Sunday, and a weekday with no events appears with a missing
metric value (none, the model of NaN), not with 0 and not omitted. -/
theorem dow_stats_seven_rows (l : List CleanRow) :
    (dow_stats l).map Prod.fst = day_order ∧
    (dow_stats l).length = 7 ∧
    ∀ d ∈ day_order, (∀ r ∈ l, dayName r.stream_date ≠ d) →
      (d, (none : Option ℚ)) ∈ dow_stats l := by
  refine ⟨by simp [dow_stats, Function.comp_def], by simp [dow_stats, day_order], ?_⟩
  intro d hd hnone
  have hfil : l.filter (fun r => dayName r.stream_date == d) = [] := by
    rw [List.filter_eq_nil_iff]
    intro r hr
    simpa using hnone r hr
  have hsum : dowGroupSum l d = none := by
    unfold dowGroupSum
    simp [hfil]
  unfold dow_stats
  exact List.mem_map.mpr ⟨d, hd, by rw [hsum]⟩

/-- C4 witness: over an empty event set, the Monday row is present with a missing
metric value. -/
theorem dow_stats_seven_rows_witness :
    ("Monday" ∈ day_order) ∧ ("Monday", (none : Option ℚ)) ∈ dow_stats [] :=
  ⟨by decide, (dow_stats_seven_rows []).2.2 "Monday" (by decide)
    (by intro r hr; cases hr)⟩

/-- C6 counterexample: one event with a null track URI but non-null track and artist
names has uniqueTracks = 1 and totalStreams = 0, so uniqueTracks exceeds
totalStreams. -/
theorem unique_gt_streams_on_null_uri :
    ¬ (unique_songs exC6 ≤ total_songs exC6) := by decide

/-- C6 (amended): uniqueTracks is at most totalStreams for every event set in which
each event has its track URI present. -/
theorem unique_songs_le_total_songs (l : List CleanRow)
    (h : ∀ r ∈ l, r.spotify_track_uri.isSome = true) :
    unique_songs l ≤ total_songs l := by
  have h1 : total_songs l = l.length := by
    unfold total_songs
    rw [List.filter_eq_self.mpr h]
  have h2 : unique_songs l ≤ (songKeys l).length :=
    (List.dedup_sublist (songKeys l)).length_le
  have h3 : (songKeys l).length ≤ l.length := List.length_filterMap_le _ _
  omega

/-- C6 witness: a one-event set whose track URI is present. -/
theorem unique_songs_le_total_songs_witness :
    (∀ r ∈ exC6ok, r.spotify_track_uri.isSome = true) ∧
    unique_songs exC6ok ≤ total_songs exC6ok :=
  ⟨by decide, unique_songs_le_total_songs exC6ok (by decide)⟩

/-- Membership through stable insertion into a sorted string list. -/
theorem mem_insertAscStr (a x : String) (l : List String) :
    a ∈ insertAscStr x l ↔ a = x ∨ a ∈ l := by
  induction l with
  | nil => simp [insertAscStr]
  | cons y ys ih =>
    simp only [insertAscStr]
    split
    · simp [ih]
      try tauto
    · simp
      try tauto

/-- Everything in the accumulator or the remaining input ends up in the sorted fold. -/
theorem mem_sortStrings_aux (l : List String) :
    ∀ (acc : List String) (a : String), a ∈ acc ∨ a ∈ l →
      a ∈ l.foldl (fun acc x => insertAscStr x acc) acc := by
  induction l with
  | nil =>
    intro acc a h
    simpa using h.resolve_right (by simp)
  | cons x xs ih =>
    intro acc a h
    apply ih
    rcases h with hacc | hl
    · exact Or.inl ((mem_insertAscStr a x acc).mpr (Or.inr hacc))
    · rcases List.mem_cons.mp hl with rfl | hxs
      · exact Or.inl ((mem_insertAscStr a a acc).mpr (Or.inl rfl))
      · exact Or.inr hxs

/-- Sorting the paths loses no path. -/
theorem mem_sortStrings (l : List String) (a : String) (h : a ∈ l) :
    a ∈ sortStrings l :=
  mem_sortStrings_aux l [] a (Or.inr h)

/-- If some file of the list is malformed, the loader loop fails. -/
theorem readAll_error_of_malformed (files : String → FileContent) (l : List String)
    (h : ∃ p ∈ l, files p = FileContent.malformed) :
    ∃ e, readAll files l = Except.error e := by
  induction l with
  | nil => simp at h
  | cons p ps ih =>
    rcases h with ⟨q, hq, hmal⟩
    rcases List.mem_cons.mp hq with rfl | hqs
    · exact ⟨PdError.valueError "Expected object or value",
        by simp [readAll, read_json, hmal]⟩
    · cases hc : files p with
      | malformed => exact ⟨PdError.valueError "Expected object or value",
          by simp [readAll, read_json, hc]⟩
      | json rows =>
        by_cases hrows : rows.isEmpty
        · exact ⟨PdError.keyError "ts", by simp [readAll, read_json, hc, hrows]⟩
        · obtain ⟨e, he⟩ := ih ⟨q, hqs, hmal⟩
          exact ⟨e, by simp [readAll, read_json, hc, hrows, he]⟩

/-- C8 counterexample: a malformed file aborts the load, but the raised error is the
parser's constant ValueError — loading list ["a"] with file a malformed and loading
list ["b"] with file b malformed produce the same error value, so the error cannot
name the offending file. -/
theorem parse_error_without_filename :
    load_streaming_files filesBad ["a"] none none
      = Except.error (PdError.valueError "Expected object or value") ∧
    load_streaming_files filesBad ["b"] none none
      = Except.error (PdError.valueError "Expected object or value") :=
  ⟨rfl, rfl⟩

/-- C8 (amended): whenever some file of the paths list is malformed, the whole load
fails with an error and produces no partial result; the error is the parser's
generic ValueError and does not name the offending file. -/
theorem malformed_file_aborts_load (files : String → FileContent) (paths : List String)
    (min_date max_date : Option Nat)
    (h : ∃ p ∈ paths, files p = FileContent.malformed) :
    ∃ e, load_streaming_files files paths min_date max_date = Except.error e := by
  obtain ⟨p, hp, hmal⟩ := h
  obtain ⟨e, he⟩ := readAll_error_of_malformed files (sortStrings paths)
    ⟨p, mem_sortStrings paths p hp, hmal⟩
  refine ⟨e, ?_⟩
  unfold load_streaming_files
  rw [he]

/-- C8 witness: a concrete malformed single-file load fails. -/
theorem malformed_file_aborts_load_witness :
    (∃ p ∈ ["a"], filesBad p = FileContent.malformed) ∧
    ∃ e, load_streaming_files filesBad ["a"] none none = Except.error e :=
  ⟨⟨"a", by simp, rfl⟩,
    malformed_file_aborts_load filesBad ["a"] none none ⟨"a", by simp, rfl⟩⟩

end Spotify
